import Mathlib

/-!
Shallow embedding of `src/Bento/export_materials.py` (the material/shader
graph compiler of the Bento exporter) together with theorems settling the
frozen specification claims.

Modelling conventions:
* Python floats are modelled as exact rationals (`ℚ`).  Python's
  `round(v, 4)` rounds the binary double to 4 decimal places with ties to
  even; the model rounds the exact rational to 4 decimal places.  The two
  agree on every value appearing in the claims (none sits on a tie or
  depends on binary representation error).
* Blender node objects are identified by natural-number ids; the Python
  `visited` set of node objects becomes a list of ids.
* Python exceptions are modelled with `Except`: `PyErr` enumerates the
  exception classes that the source can raise; the traversal additionally
  uses `TraceErr` which adds a `fuelOut` marker for the fuel-based
  encoding of Python's (unbounded) recursion.
* `xml.etree.ElementTree` elements become the inductive `XML`; an
  attribute is a `(key, value)` pair (the value is `Option String` because
  `ET.Element(tag, type=node_type)` can store `None`), `ET.SubElement`
  appends to `children`.
-/

deriving instance DecidableEq for Except

namespace Bento

/-- Python exception classes that `export_materials.py` can raise. -/
inductive PyErr where
  | typeError
  | attributeError
  | indexError
  | keyError
  | valueError
  deriving DecidableEq, Repr

/-- Errors of the fuel-based traversal: a real Python exception, or the
fuel-exhaustion marker of the recursion encoding (never reachable with
enough fuel, see the termination theorem). -/
inductive TraceErr where
  | py (e : PyErr)
  | fuelOut
  deriving DecidableEq, Repr

/-- A Python value stored in a socket's `default_value`: a float, a
`bpy_prop_array`-style sequence of floats, or a string. -/
inductive Value where
  | f (q : ℚ)
  | arr (l : List ℚ)
  | s (str : String)
  deriving DecidableEq, Repr

/-- An `xml.etree.ElementTree.Element`: tag (may be `None`), ordered
attributes, ordered children. -/
inductive XML where
  | mk (tag : Option String) (attrs : List (String × Option String)) (children : List XML)

/-- Boolean equality on `XML`, structurally. -/
def XML.beq : XML → XML → Bool
  | .mk t1 a1 c1, .mk t2 a2 c2 =>
    t1 == t2 && a1 == a2 && beqChildren c1 c2
where beqChildren : List XML → List XML → Bool
  | [], [] => true
  | x :: xs, y :: ys => XML.beq x y && beqChildren xs ys
  | _, _ => false

theorem XML.beq_iff : ∀ a b : XML, XML.beq a b = true ↔ a = b := by
  have main : ∀ a b : XML, (XML.beq a b = true ↔ a = b) := by
    intro a
    induction a using XML.rec
      (motive_2 := fun l => ∀ m, (XML.beq.beqChildren l m = true ↔ l = m)) with
    | mk t a c ih =>
      intro b
      cases b with
      | mk t' a' c' =>
        simp only [XML.beq, Bool.and_eq_true, beq_iff_eq, XML.mk.injEq]
        rw [ih c']
        tauto
    | nil =>
      rename_i m
      cases m <;> simp [XML.beq.beqChildren]
    | cons x xs ihx ihxs =>
      rename_i m
      cases m with
      | nil => simp [XML.beq.beqChildren]
      | cons y ys =>
        simp only [XML.beq.beqChildren, Bool.and_eq_true, List.cons.injEq]
        rw [ihx y, ihxs ys]
  exact main

instance : DecidableEq XML := fun a b =>
  decidable_of_iff (XML.beq a b = true) (XML.beq_iff a b)

/-- Append one child element (the effect of `ET.SubElement` /
`node_tag.append`). -/
def addChild : XML → XML → XML
  | .mk t a cs, c => .mk t a (cs ++ [c])

/-- Append a list of children in order. -/
def addChildren : XML → List XML → XML
  | .mk t a cs, l => .mk t a (cs ++ l)

/-- Set an attribute, replacing an existing key in place (the semantics of
`Element.set`). -/
def setA : List (String × Option String) → String → String → List (String × Option String)
  | [], k, v => [(k, some v)]
  | (k', v') :: rest, k, v =>
    if k' == k then (k, some v) :: rest else (k', v') :: setA rest k v

/-- Element-level `set` of `Element.set(key, value)`. -/
def setAttr : XML → String → String → XML
  | .mk t a cs, k, v => .mk t (setA a k v) cs

/-- Rounding of `round(q * 10000)` used to model Python's `round(v, 4)`. -/
def round4int (q : ℚ) : ℤ := round (q * 10000)

/-- Decimal digits (most significant first) of a 4-digit fractional part. -/
def natDigits4 (n : ℕ) : List ℕ := [n / 1000 % 10, n / 100 % 10, n / 10 % 10, n % 10]

/-- The canonical text `str(round(v, 4))` of a Python float: decimal
notation with trailing zeros trimmed but at least one fractional digit
(`str(1.0) = "1.0"`, `str(0.25) = "0.25"`). -/
def str_round4 (q : ℚ) : String :=
  let m := round4int q
  let sign := if m < 0 then "-" else ""
  let n := m.natAbs
  let ip := n / 10000
  let fp := n % 10000
  let digs := ((natDigits4 fp).reverse.dropWhile (fun d => d == 0)).reverse
  let fracStr := if digs.isEmpty then "0" else String.join (digs.map (fun d => toString d))
  sign ++ toString ip ++ "." ++ fracStr

/-- Python `str(value)` for the fall-through branch of `convert_values`.
Only the string case is exercised by mapped configurations; the numeric
cases are unreachable approximations (the source would print the full
float repr / the `bpy_prop_array` repr). -/
def pyStr : Value → String
  | .s s => s
  | .f q => str_round4 q
  | .arr _ => "<bpy_prop_array>"

/-- Model of `convert_values(value, param_type)` (lines 69-79).
`color`: first three channels, each `str(round(v, 4))`, comma-joined;
`float`: first element of a sequence, else the scalar, `str(round(.,4))`;
anything else: `str(value)`.  Error cases mirror the exceptions Python
would raise on ill-typed input (slicing a float, `float("...")`, empty
array subscript). -/
def convert_values (value : Value) (param_type : Option String) : Except PyErr String :=
  if param_type = some "color" then
    match value with
    | .arr l => .ok (String.intercalate "," ((l.take 3).map str_round4))
    | _ => .error .typeError
  else if param_type = some "float" then
    match value with
    | .arr [] => .error .indexError
    | .arr (v :: _) => .ok (str_round4 v)
    | .f q => .ok (str_round4 q)
    | .s _ => .error .valueError
  else
    .ok (pyStr value)

/-- Blender image datablock, as read and written by `export_texture`. -/
structure Image where
  name : String
  width : ℕ
  height : ℕ
  pixels : List ℚ
  file_format : String
  has_data : Bool
  deriving DecidableEq, Repr

/-- An input socket: name, socket type tag, default value, and incoming
links (ids of the producer `from_node`s). -/
structure Socket where
  name : String
  type : String
  default_value : Value
  links : List ℕ
  deriving DecidableEq, Repr

/-- A shading node: node-kind string, ordered input sockets, and (for
texture nodes) an optional image datablock. -/
structure NodeData where
  type : String
  inputs : List Socket
  image : Option Image := none
  deriving DecidableEq, Repr

/-- A material node tree as a finite association of node ids to nodes.
In the source, links reference node objects directly; the id indirection
is the only change. -/
structure Graph where
  nodes : List (ℕ × NodeData)
  deriving DecidableEq, Repr

/-- Resolve a node id (a link's `from_node`). -/
def getNode (g : Graph) (i : ℕ) : Option NodeData :=
  (g.nodes.find? (fun p => p.1 == i)).map (·.2)

/-- Blender's `node.inputs.get(name)`: first socket with the given name. -/
def getSocket (node : NodeData) (name : String) : Option Socket :=
  node.inputs.find? (fun s => s.name == name)

/-- The four mapping tables of the configuration, as association lists
(the tuple returned by `load_config`). -/
structure Config where
  node_tag_map : List (String × String)
  node_map : List (String × String)
  parameter_map : List (String × List (String × String))
  type_map : List (String × String)
  deriving DecidableEq, Repr

/-- Python `dict.get(key)` on an association list. -/
def dictGet (m : List (String × String)) (k : String) : Option String :=
  (m.find? (fun p => p.1 == k)).map (·.2)

/-- The nested lookup `parameter_map.get(node_type, {}).get(socket_name)`. -/
def dictGet2 (pm : List (String × List (String × String))) (nt sname : String) :
    Option String :=
  match (pm.find? (fun p => p.1 == nt)).map (·.2) with
  | none => none
  | some inner => dictGet inner sname

/-- Python truthiness of an optional string (`None` and `""` are falsy). -/
def truthyOpt : Option String → Bool
  | none => false
  | some s => !s.isEmpty

/-- Export settings consumed by the material exporter.  `save_ok` models
the outcome of the external `img.save()` call (success, or a
`RuntimeError` caught by the source). -/
structure ExportSettings where
  export_textures : Bool
  texture_format : String
  save_ok : Bool
  deriving DecidableEq, Repr

/-- The base name of `os.path.splitext(name)[0]`: the name up to the last
dot (simplified: Python keeps a leading dot of a hidden file, which no
claim exercises). -/
def splitextBase (s : String) : String :=
  let parts := s.splitOn "."
  if parts.length ≤ 1 then s else String.intercalate "." parts.dropLast

/-- The vertical pixel flip of `export_texture` (lines 340-344): rows are
emitted bottom-up, four channels per pixel. -/
def flippedPixels (w h : ℕ) (orig : List ℚ) : List ℚ :=
  (List.range h).flatMap (fun y =>
    let src_y := h - 1 - y
    (List.range w).flatMap (fun x => ((orig.drop ((src_y * w + x) * 4)).take 4)))

/-- Model of `export_texture(node, texture_dir, export_settings)`
(lines 320-367).  Returns the resource path (or `none`) together with the
final state of the node's image datablock; the temporary flip and format
change, the `except` branch's restore, and the `finally` restore are all
reproduced. -/
def export_texture (node : NodeData) (texture_dir : String) (es : ExportSettings) :
    Option String × Option Image :=
  if !es.export_textures then (none, node.image)
  else
    match node.image with
    | none => (none, none)
    | some img =>
      if !img.has_data then (none, some img)
      else
        let w := img.width
        let h := img.height
        let original_pixels := img.pixels
        let flipped := flippedPixels w h original_pixels
        let img1 : Image := { img with pixels := flipped }
        let img_name := splitextBase img.name
        let file_ext := es.texture_format.toLower
        let _out_path := texture_dir ++ "/" ++ img_name ++ "." ++ file_ext
        let original_format := img1.file_format
        let img2 : Image := { img1 with file_format := es.texture_format }
        if es.save_ok then
          -- `finally`: restore format and pixels, then return the path
          let img3 : Image := { img2 with file_format := original_format }
          let img4 : Image := { img3 with pixels := original_pixels }
          (some ("textures/" ++ img_name ++ "." ++ file_ext), some img4)
        else
          -- `except RuntimeError`: restore format and return None, then
          -- `finally`: restore format (again) and pixels
          let img3 : Image := { img2 with file_format := original_format }
          let img4 : Image := { img3 with file_format := original_format,
                                          pixels := original_pixels }
          (none, some img4)

/-- Python `list[i]` with its `IndexError`. -/
def pyGet (l : List ℚ) (i : ℕ) : Except PyErr ℚ :=
  match l.get? i with
  | some v => .ok v
  | none => .error .indexError

/-- The clamp `max(0.0, min(1.0, t))` of the tint blocks. -/
def clamp01 (x : ℚ) : ℚ := max 0 (min 1 x)

/-- One channel of the tint remap (lines 184-190 and 234-240): invert the
linear blend when the denominator is away from zero, otherwise pick the
degenerate 0/1 answer by thresholding the tint channel. -/
def tint_channel (b t : ℚ) : ℚ :=
  if |b - 1| > 1/10000 then clamp01 ((t - 1) / (b - 1))
  else if t ≥ 9999/10000 then 0 else 1

/-- The `for i in range(3)` loop followed by `sum(tint_values) / 3.0`,
shared by the duplicated Specular Tint and Sheen Tint blocks.  Reads
`base[i]` then `tint[i]` per iteration, as the source does. -/
def tint_average (base tint : List ℚ) : Except PyErr ℚ := do
  let b0 ← pyGet base 0
  let t0 ← pyGet tint 0
  let b1 ← pyGet base 1
  let t1 ← pyGet tint 1
  let b2 ← pyGet base 2
  let t2 ← pyGet tint 2
  pure ((tint_channel b0 t0 + tint_channel b1 t1 + tint_channel b2 t2) / 3)

/-- Emit `ET.SubElement(tag, "float", name=pname, value=convert_values(v, "float"))`. -/
def emitFloatAttr (tag : XML) (pname : String) (v : Value) : Except PyErr XML :=
  match convert_values v (some "float") with
  | .error e => .error e
  | .ok s => .ok (addChild tag (XML.mk (some "float") [("name", some pname), ("value", some s)] []))

/-- Emit `ET.SubElement(tag, "color", name=pname, value=convert_values(v, "color"))`. -/
def emitColorAttr (tag : XML) (pname : String) (v : Value) : Except PyErr XML :=
  match convert_values v (some "color") with
  | .error e => .error e
  | .ok s => .ok (addChild tag (XML.mk (some "color") [("name", some pname), ("value", some s)] []))

/-- One guarded float-socket emission of the Principled branch: look up a
socket (with a fallback name for older Blender versions), and if present
and unconnected emit its default as a float attribute.  For sockets
without a fallback in the source, `primary` and `fallback` coincide. -/
def floatSocketStep (node : NodeData) (primary fallback pname : String) (acc : XML) :
    Except PyErr XML :=
  match (getSocket node primary).orElse (fun _ => getSocket node fallback) with
  | none => .ok acc
  | some sock =>
    if sock.links.length == 0 then emitFloatAttr acc pname sock.default_value
    else .ok acc

/-- One tint block of the Principled branch (Specular Tint lines 175-198,
Sheen Tint lines 225-248): take the first three channels of the base
color default (or the `[0.5, 0.5, 0.5]` fallback when the Base Color
socket is absent), remap against the tint default, and emit the channel
average as a float attribute. -/
def tintStep (node : NodeData) (base_color : Option Socket) (sockName pname : String)
    (acc : XML) : Except PyErr XML :=
  match getSocket node sockName with
  | none => .ok acc
  | some st =>
    if st.links.length == 0 then
      match (match base_color with
             | some bc =>
               (match bc.default_value with
                | .arr l => Except.ok (l.take 3)
                | _ => Except.error PyErr.typeError)
             | none => Except.ok [1/2, 1/2, 1/2]) with
      | .error e => .error e
      | .ok bcv =>
        match st.default_value with
        | .arr tl =>
          match tint_average bcv (tl.take 3) with
          | .error e => .error e
          | .ok tv => emitFloatAttr acc pname (.f tv)
        | _ => .error .typeError
    else .ok acc

/-- The Coat Roughness block with its sign inversion
`clearcoatGloss = 1.0 - coat_roughness` (lines 263-274). -/
def coatGlossStep (node : NodeData) (acc : XML) : Except PyErr XML :=
  match (getSocket node "Coat Roughness").orElse (fun _ => getSocket node "Clearcoat Roughness") with
  | none => .ok acc
  | some cr =>
    if cr.links.length == 0 then
      match cr.default_value with
      | .f v => emitFloatAttr acc "clearcoatGloss" (.f (1 - v))
      | _ => .error .typeError
    else .ok acc

/-- Model of `handle_special_cases(node, node_tag, texture_dir,
export_settings)` (lines 111-317): the kind-specific rewrite rules.  The
Python `match node.type` is rendered as an if-chain over the same string
literals; the wildcard case yields `none` ("no special handling"). -/
def handle_special_cases (node : NodeData) (node_tag : XML) (td : String)
    (es : ExportSettings) : Except PyErr (Option XML) :=
  if node.type = "EMISSION" then
    -- radiance = color * strength, both read from the defaults
    match getSocket node "Color" with
    | none => .error .attributeError
    | some cs =>
      match getSocket node "Strength" with
      | none => .error .attributeError
      | some ss =>
        match cs.default_value, ss.default_value with
        | .arr color, .f strength =>
          let radiance := (color.take 3).map (fun c => c * strength)
          match convert_values (.arr radiance) (some "color") with
          | .error e => .error e
          | .ok v =>
            .ok (some (addChild node_tag
              (XML.mk (some "color") [("name", some "radiance"), ("value", some v)] [])))
        | _, _ => .error .typeError
  else if node.type = "BSDF_PRINCIPLED" then do
    let base_color := getSocket node "Base Color"
    let acc := node_tag
    let acc ← (match base_color with
               | some bc =>
                 if bc.links.length == 0 then emitColorAttr acc "baseColor" bc.default_value
                 else pure acc
               | none => pure acc)
    let acc ← floatSocketStep node "Subsurface Weight" "Subsurface" "subsurface" acc
    let acc ← floatSocketStep node "Metallic" "Metallic" "metallic" acc
    let acc ← floatSocketStep node "Specular IOR Level" "Specular" "specular" acc
    let acc ← tintStep node base_color "Specular Tint" "specularTint" acc
    let acc ← floatSocketStep node "Roughness" "Roughness" "roughness" acc
    let acc ← floatSocketStep node "Sheen Weight" "Sheen" "sheen" acc
    let acc ← tintStep node base_color "Sheen Tint" "sheenTint" acc
    let acc ← floatSocketStep node "Coat Weight" "Clearcoat" "clearcoat" acc
    let acc ← coatGlossStep node acc
    pure (some acc)
  else if node.type = "BSDF_DIFFUSE" then
    match getSocket node "Color" with
    | some c =>
      if c.links.length == 0 then
        match convert_values c.default_value (some "color") with
        | .error e => .error e
        | .ok v =>
          .ok (some (addChild node_tag
            (XML.mk (some "color") [("name", some "albedo"), ("value", some v)] [])))
      else .ok (some node_tag)
    | none => .ok (some node_tag)
  else if node.type = "BSDF_GLOSSY" then
    match getSocket node "Roughness" with
    | none => .error .attributeError
    | some rs =>
      match rs.default_value with
      | .f roughness =>
        let alpha := roughness ^ 2
        if alpha < 1/100000 then
          .ok (some (XML.mk (some "bsdf") [("type", some "mirror")] []))
        else
          let accE : Except PyErr XML :=
            match getSocket node "Color" with
            | some c =>
              if c.links.length == 0 then emitColorAttr node_tag "kd" c.default_value
              else .ok node_tag
            | none => .ok node_tag
          match accE with
          | .error e => .error e
          | .ok acc =>
            match emitFloatAttr acc "alpha" (.f alpha) with
            | .error e => .error e
            | .ok acc2 => .ok (some acc2)
      | _ => .error .typeError
  else if node.type = "TEX_IMAGE" then
    let r := export_texture node td es
    match r.1 with
    | some p =>
      if !p.isEmpty then
        .ok (some (addChild node_tag
          (XML.mk (some "string") [("name", some "filename"), ("value", some p)] [])))
      else .ok (some node_tag)
    | none => .ok (some node_tag)
  else
    .ok none

/-- The generic parameter loop of `node_to_xml` (lines 96-106): for every
unconnected input socket with a registered (and truthy) parameter name,
canonicalize its default by the socket type's mapped primitive and append
it as a `name`/`value` subelement. -/
def genericParams (pm : List (String × List (String × String)))
    (tm : List (String × String)) (ntype : String) :
    List Socket → XML → Except PyErr XML
  | [], acc => .ok acc
  | s :: rest, acc =>
    if s.links.length > 0 then genericParams pm tm ntype rest acc
    else
      match dictGet2 pm ntype s.name with
      | none => genericParams pm tm ntype rest acc
      | some pname =>
        if pname.isEmpty then genericParams pm tm ntype rest acc
        else
          let ptype := dictGet tm s.type
          match convert_values s.default_value ptype with
          | .error e => .error e
          | .ok pvalue =>
            genericParams pm tm ntype rest
              (addChild acc (XML.mk ptype [("name", some pname), ("value", some pvalue)] []))

/-- Model of `node_to_xml(node, config, texture_dir, export_settings)`
(lines 82-108): skip the node when its kind has no truthy `node_map`
entry and it is not a texture node with texture export enabled; otherwise
build the element skeleton, try the kind-specific rules, and fall back to
the generic parameter loop. -/
def node_to_xml (node : NodeData) (cfg : Config) (td : String) (es : ExportSettings) :
    Except PyErr (Option XML) :=
  let node_type := dictGet cfg.node_map node.type
  let export_img := node.type == "TEX_IMAGE" && es.export_textures
  if !truthyOpt node_type && !export_img then .ok none
  else
    let node_tag : XML := .mk (dictGet cfg.node_tag_map node.type) [("type", node_type)] []
    match handle_special_cases node node_tag td es with
    | .error e => .error e
    | .ok (some special) => .ok (some special)
    | .ok none =>
      match genericParams cfg.parameter_map cfg.type_map node.type node.inputs node_tag with
      | .error e => .error e
      | .ok t => .ok (some t)

/-- The `(socket name, linked producer id)` pairs visited by the nested
`for input_socket in node.inputs: for link in input_socket.links` loops,
in source order. -/
def inputSpecs (node : NodeData) : List (String × ℕ) :=
  node.inputs.flatMap (fun s => s.links.map (fun j => (s.name, j)))

/-- The child-collection loop of `traverse` (lines 46-54), abstracted over
the recursive call `rec`: traverse each linked producer, skip empty
results, set the registered parameter name on a produced child, and
thread the visited set left to right. -/
def traverseList (rec : List ℕ → ℕ → Except TraceErr (Option XML × List ℕ))
    (pm : List (String × List (String × String))) (ntype : String) :
    List (String × ℕ) → List ℕ → Except TraceErr (List XML × List ℕ)
  | [], visited => .ok ([], visited)
  | (sname, j) :: rest, visited =>
    match rec visited j with
    | .error e => .error e
    | .ok (none, v1) => traverseList rec pm ntype rest v1
    | .ok (some ct, v1) =>
      let ct1 := match dictGet2 pm ntype sname with
        | some pname => if pname.isEmpty then ct else setAttr ct "name" pname
        | none => ct
      match traverseList rec pm ntype rest v1 with
      | .error e => .error e
      | .ok (cs, v2) => .ok (ct1 :: cs, v2)

/-- Model of the inner `traverse(node)` closure of
`traverse_material_nodes` (lines 40-63), with the shared mutable visited
set threaded explicitly and fuel making the recursion structural: an
already-visited node contributes no subtree; otherwise mark it visited,
compile the producers of all linked input sockets, convert the node
itself, and either drop the subtree (`None` conversion) or append the
collected children. -/
def traverseF (g : Graph) (cfg : Config) (td : String) (es : ExportSettings) :
    (fuel : ℕ) → List ℕ → ℕ → Except TraceErr (Option XML × List ℕ)
  | 0 => fun _ _ => .error .fuelOut
  | fuel + 1 => fun visited i =>
    if i ∈ visited then .ok (none, visited)
    else
      match getNode g i with
      | none => .error (.py .keyError)
      | some node =>
        match traverseList (fun v j => traverseF g cfg td es fuel v j)
            cfg.parameter_map node.type (inputSpecs node) (i :: visited) with
        | .error e => .error e
        | .ok (child_tags, v2) =>
          match node_to_xml node cfg td es with
          | .error e => .error (.py e)
          | .ok none => .ok (none, v2)
          | .ok (some node_tag) => .ok (some (addChildren node_tag child_tags), v2)

/-- A material: name, whether it uses nodes, and its node tree. -/
structure Material where
  name : String
  use_nodes : Bool
  node_tree : Graph
  deriving DecidableEq, Repr

/-- Model of `traverse_material_nodes(material, config, texture_dir,
export_settings)` (lines 22-66): pick the first Material Output node (a
missing one is reported and skipped), then follow
`output_node.inputs["Surface"].links[0].from_node` — a missing Surface
socket raises `KeyError` and an empty link list raises `IndexError`,
neither of which the source catches — and traverse from the shader node.
The fuel `|nodes| + 1` is sufficient by the termination theorem. -/
def traverse_material_nodes (mat : Material) (cfg : Config) (td : String)
    (es : ExportSettings) : Except TraceErr (Option XML) :=
  if !mat.use_nodes then .ok none
  else
    match mat.node_tree.nodes.filter (fun p => p.2.type == "OUTPUT_MATERIAL") with
    | [] => .ok none
    | (_, onode) :: _ =>
      match getSocket onode "Surface" with
      | none => .error (.py .keyError)
      | some surf =>
        match surf.links with
        | [] => .error (.py .indexError)
        | sid :: _ =>
          (traverseF mat.node_tree cfg td es (mat.node_tree.nodes.length + 1) [] sid).map (·.1)

/-- Model of `export_materials(config, texture_dir, export_settings)`
(lines 370-387).  The upstream visibility filter over scene objects is a
peripheral collaborator; the set of visible material names is taken as an
argument.  An uncaught exception from one material's compilation aborts
the whole batch, exactly as in the source. -/
def export_materials (mats : List Material) (visible : List String) (cfg : Config)
    (td : String) (es : ExportSettings) : Except TraceErr (List (String × XML)) :=
  match mats with
  | [] => .ok []
  | m :: rest =>
    if m.name ∈ visible then
      match traverse_material_nodes m cfg td es with
      | .error e => .error e
      | .ok none => export_materials rest visible cfg td es
      | .ok (some xml) =>
        (export_materials rest visible cfg td es).map (fun l => (m.name, xml) :: l)
    else export_materials rest visible cfg td es

/-! Concrete node families, graphs and configurations used to settle the
claims, plus spec-side definitions for refinement comparisons. -/

/-- An empty element, used as the incoming skeleton in rule-level
statements. -/
def xmlNil : XML := .mk none [] []

/-- The node kinds carrying a kind-specific rewrite rule in
`handle_special_cases`. -/
def specialTypes : List String :=
  ["EMISSION", "BSDF_PRINCIPLED", "BSDF_DIFFUSE", "BSDF_GLOSSY", "TEX_IMAGE"]

/-- Whether the generic parameter loop emits an attribute for a socket:
it must be unconnected and have a registered, truthy parameter name. -/
def emitsParam (pm : List (String × List (String × String))) (nt : String)
    (s : Socket) : Bool :=
  s.links.length == 0 &&
    (match dictGet2 pm nt s.name with
     | some p => !p.isEmpty
     | none => false)

/-- A glossy node whose Roughness socket default is `r` (unconnected). -/
def glossyNode (r : ℚ) : NodeData :=
  ⟨"BSDF_GLOSSY", [⟨"Roughness", "VALUE", .f r, []⟩], none⟩

/-- A principled node with unconnected Base Color default
`(b1, b2, b3, 1)` and unconnected Specular Tint default
`(t1, t2, t3, 1)`. -/
def principledNode (b1 b2 b3 t1 t2 t3 : ℚ) : NodeData :=
  ⟨"BSDF_PRINCIPLED",
   [⟨"Base Color", "RGBA", .arr [b1, b2, b3, 1], []⟩,
    ⟨"Specular Tint", "RGBA", .arr [t1, t2, t3, 1], []⟩], none⟩

/-- An emission node with Color default `(c1, c2, c3, c4)` and Strength
default `s`; `clinks`/`slinks` are the incoming links of the two
sockets. -/
def emissionNode (c1 c2 c3 c4 s : ℚ) (clinks slinks : List ℕ) : NodeData :=
  ⟨"EMISSION",
   [⟨"Color", "RGBA", .arr [c1, c2, c3, c4], clinks⟩,
    ⟨"Strength", "VALUE", .f s, slinks⟩], none⟩

/-- Spec-side definition, from the claim wording: one channel of the tint
remap, `clamp01((T_i - 1) / (B_i - 1))` when `|B_i - 1| > 1e-4`, else `0`
if `T_i >= 1 - 1e-4` else `1`. -/
def claim_tint_channel (b t : ℚ) : ℚ :=
  if |b - 1| > 1/10000 then max 0 (min 1 ((t - 1) / (b - 1)))
  else if t ≥ 1 - 1/10000 then 0 else 1

/-- Spec-side definition, from the claim wording: the emitted
tint-strength scalar is the unweighted average of the three channel
remaps. -/
def claim_tint_strength (B T : ℚ × ℚ × ℚ) : ℚ :=
  (claim_tint_channel B.1 T.1 + claim_tint_channel B.2.1 T.2.1
    + claim_tint_channel B.2.2 T.2.2) / 3

/-- The diffuse node of the end-to-end scenario: `color` socket
unconnected with default `(0.8, 0.1, 0.1, 1.0)`. -/
def diffuseNode : NodeData :=
  ⟨"BSDF_DIFFUSE", [⟨"Color", "RGBA", .arr [8/10, 1/10, 1/10, 1], []⟩], none⟩

/-- A material-output node whose Surface input is linked to node 1. -/
def outputNode : NodeData :=
  ⟨"OUTPUT_MATERIAL", [⟨"Surface", "SHADER", .f 0, [1]⟩], none⟩

/-- The two-node material of the end-to-end scenario. -/
def diffuseMat : Material :=
  ⟨"good", true, ⟨[(0, outputNode), (1, diffuseNode)]⟩⟩

/-- A configuration mapping the diffuse kind: tag `bsdf`, type label
`diffuse`. -/
def cfg9 : Config :=
  ⟨[("BSDF_DIFFUSE", "bsdf")], [("BSDF_DIFFUSE", "diffuse")], [], [("RGBA", "color")]⟩

/-- Export settings with texture export disabled. -/
def esNoTex : ExportSettings := ⟨false, "PNG", true⟩

/-- A material with a Material Output node whose Surface input has no
incoming link. -/
def matBad : Material :=
  ⟨"bad", true, ⟨[(0, ⟨"OUTPUT_MATERIAL", [⟨"Surface", "SHADER", .f 0, []⟩], none⟩)]⟩⟩

/-- A generic mapped node kind with no rewrite rule, used for the diamond
and cycle graphs. -/
def fooSocket (name : String) (links : List ℕ) : Socket := ⟨name, "SHADER", .f 0, links⟩

/-- Diamond DAG: root 0 has two inputs fed by consumers 1 and 2, each of
which consumes the shared producer 3. -/
def gDiamond : Graph :=
  ⟨[(0, ⟨"FOO", [fooSocket "A" [1], fooSocket "B" [2]], none⟩),
    (1, ⟨"FOO", [fooSocket "In" [3]], none⟩),
    (2, ⟨"FOO", [fooSocket "In" [3]], none⟩),
    (3, ⟨"FOO", [], none⟩)]⟩

/-- A malformed cyclic graph: nodes 0 and 1 feed each other. -/
def gCyc : Graph :=
  ⟨[(0, ⟨"FOO", [fooSocket "In" [1]], none⟩),
    (1, ⟨"FOO", [fooSocket "In" [0]], none⟩)]⟩

/-- A configuration mapping only the generic kind `FOO`. -/
def cfgD : Config := ⟨[("FOO", "shader")], [("FOO", "foo")], [], []⟩

/-- A node kind that has a `node_map` (type-label) entry but no
`node_tag_map` (tag) entry under `cfgNoTag`. -/
def fooNode : NodeData := ⟨"FOO", [], none⟩

/-- A node kind with neither a `node_map` entry nor a `node_tag_map`
entry under `cfgNoTag`. -/
def barNode : NodeData := ⟨"BAR", [], none⟩

/-- A configuration whose tag table is empty while the type-label table
maps `FOO`. -/
def cfgNoTag : Config := ⟨[], [("FOO", "foo")], [], []⟩

/-- A one-node graph holding the unmapped node `BAR`. -/
def gBar : Graph := ⟨[(0, barNode)]⟩

/-- A non-special node with a connected registered socket `A`, an
unconnected registered socket `B`, and an unconnected unregistered
socket `C`. -/
def mixNode : NodeData :=
  ⟨"MIX", [⟨"A", "RGBA", .arr [1, 1, 1, 1], [9]⟩,
           ⟨"B", "VALUE", .f 2, []⟩,
           ⟨"C", "VALUE", .f 3, []⟩], none⟩

/-- Configuration registering parameter names for `MIX` sockets `A` and
`B`. -/
def cfg8 : Config :=
  ⟨[("MIX", "mix")], [("MIX", "mixt")], [("MIX", [("A", "colA"), ("B", "colB")])],
   [("RGBA", "color"), ("VALUE", "float")]⟩

/-- Node ids present in a graph. -/
def idsOf (g : Graph) : Finset ℕ := (g.nodes.map Prod.fst).toFinset

/-- Number of graph nodes not yet visited; the measure that shrinks at
every non-trivial traversal step. -/
def unvisitedCount (g : Graph) (v : List ℕ) : ℕ := (idsOf g \ v.toFinset).card

/-! Theorems settling the claims. -/

set_option maxRecDepth 4000

/-- C9: canonicalizing a value as the `color` primitive uses exactly the
first three channels (a fourth channel and beyond never influence the
text), the concrete default `(0.8, 0.1, 0.1, 1.0)` canonicalizes to
`"0.8,0.1,0.1"` (each channel rounded to 4 decimal digits, comma-joined,
no spaces), and the two-node end-to-end scenario (diffuse node feeding a
material output, `color` unconnected) compiles to one IR node with tag
mapped from the diffuse kind, a single `albedo` attribute subelement with
that value, and zero node children. -/
theorem color_canonicalization_end_to_end :
    (∀ (a b c d : ℚ) (rest : List ℚ),
      convert_values (.arr (a :: b :: c :: d :: rest)) (some "color")
        = convert_values (.arr [a, b, c]) (some "color"))
    ∧ convert_values (.arr [8/10, 1/10, 1/10, 1]) (some "color") = .ok "0.8,0.1,0.1"
    ∧ traverse_material_nodes diffuseMat cfg9 "" esNoTex =
        .ok (some (XML.mk (some "bsdf") [("type", some "diffuse")]
          [XML.mk (some "color") [("name", some "albedo"), ("value", some "0.8,0.1,0.1")] []])) := by
  refine ⟨fun a b c d rest => rfl, by with_unfolding_all decide, by with_unfolding_all decide⟩

/-- C3: evaluation of the code at the failing input.  A material that has
a Material Output node but no link into its Surface input makes
`output_node.inputs["Surface"].links[0]` raise an uncaught `IndexError`;
the exception unwinds out of `export_materials`, so the remaining
materials of the batch produce nothing — the same good material alone
compiles fine. -/
theorem surface_link_indexerror :
    traverse_material_nodes matBad cfg9 "" esNoTex = .error (.py .indexError)
    ∧ export_materials [matBad, diffuseMat] ["bad", "good"] cfg9 "" esNoTex =
        .error (.py .indexError)
    ∧ export_materials [diffuseMat] ["good"] cfg9 "" esNoTex =
        .ok [("good", XML.mk (some "bsdf") [("type", some "diffuse")]
          [XML.mk (some "color") [("name", some "albedo"), ("value", some "0.8,0.1,0.1")] []])] := by
  refine ⟨by decide, by decide, by with_unfolding_all decide⟩

/-- C7: in the diamond DAG `gDiamond` (producer 3 feeds consumers 1 and
2, which feed root 0), the shared producer is emitted as a child of the
first-visited consumer 1 only; consumer 2, visited second, receives no
child for its linked input — that branch is silently lost. -/
theorem diamond_first_visited_consumer_only :
    traverseF gDiamond cfgD "" esNoTex 5 [] 0 =
      .ok (some (XML.mk (some "shader") [("type", some "foo")]
        [XML.mk (some "shader") [("type", some "foo")]
          [XML.mk (some "shader") [("type", some "foo")] []],
         XML.mk (some "shader") [("type", some "foo")] []]), [2, 3, 1, 0]) := by
  decide

/-- C10: whenever `export_texture` returns — for every outcome of the
external save, including failure — the image's pixel buffer and
`file_format` equal their values before the call: the temporary vertical
flip and format change are restored on every path. -/
theorem texture_export_restores_image (node : NodeData) (td : String) (es : ExportSettings) :
    ((export_texture node td es).2).map (fun i => (i.pixels, i.file_format))
      = node.image.map (fun i => (i.pixels, i.file_format)) := by
  unfold export_texture
  cases h : node.image with
  | none => by_cases h1 : es.export_textures <;> simp [h, h1]
  | some img =>
    by_cases h1 : es.export_textures <;> by_cases h2 : img.has_data <;>
      by_cases h3 : es.save_ok <;> simp [h, h1, h2, h3]

/-- C5 counterexample: the claim says a connected color socket is
excluded from the radiance formula, but two emission nodes that differ
only in the default of their connected Color socket (links `[42]`)
produce different radiance attributes — the connected socket's default is
included. -/
theorem emission_connected_default_counterexample :
    handle_special_cases (emissionNode 2 2 2 1 3 [42] []) xmlNil "" esNoTex ≠
      handle_special_cases (emissionNode 4 4 4 1 3 [42] []) xmlNil "" esNoTex := by
  with_unfolding_all decide

/-- C5 amended: the emission rule emits a `radiance` color attribute equal
to the channel-wise product of the Color socket's default and the
Strength socket's default scalar, with both defaults read unconditionally
— whether or not either socket has incoming links. -/
theorem emission_radiance_from_defaults (c1 c2 c3 c4 s : ℚ) (clinks slinks : List ℕ)
    (nt : XML) (td : String) (es : ExportSettings) :
    handle_special_cases (emissionNode c1 c2 c3 c4 s clinks slinks) nt td es =
      .ok (some (addChild nt (XML.mk (some "color")
        [("name", some "radiance"),
         ("value", some (String.intercalate ","
           [str_round4 (c1 * s), str_round4 (c2 * s), str_round4 (c3 * s)]))] []))) := rfl

/-- C1: for a glossy node with roughness default `r`, the rule derives
`alpha = r^2`; below the `1e-5` threshold the node is re-emitted as the
perfectly-specular substitute (tag `bsdf`, type `mirror`, no other
attributes), otherwise the incoming glossy skeleton is kept and an
`alpha` float attribute is appended, whose canonical text at `r = 0.5`
is `"0.25"`. -/
theorem glossy_threshold_substitution (r : ℚ) (nt : XML) (td : String) (es : ExportSettings) :
    (r ^ 2 < 1/100000 →
      handle_special_cases (glossyNode r) nt td es =
        .ok (some (XML.mk (some "bsdf") [("type", some "mirror")] [])))
    ∧ (¬ r ^ 2 < 1/100000 →
      handle_special_cases (glossyNode r) nt td es =
        .ok (some (addChild nt (XML.mk (some "float")
          [("name", some "alpha"), ("value", some (str_round4 (r ^ 2)))] []))))
    ∧ str_round4 ((1/2 : ℚ) ^ 2) = "0.25" := by
  have e1 : handle_special_cases (glossyNode r) nt td es =
      (if r ^ 2 < 1/100000 then
        Except.ok (some (XML.mk (some "bsdf") [("type", some "mirror")] []))
      else
        Except.ok (some (addChild nt (XML.mk (some "float")
          [("name", some "alpha"), ("value", some (str_round4 (r ^ 2)))] [])))) := rfl
  refine ⟨fun h => ?_, fun h => ?_, by with_unfolding_all decide⟩
  · rw [e1, if_pos h]
  · rw [e1, if_neg h]

/-- C1 witness: the two threshold branches at the concrete claim inputs
`roughness = 0.001` (alpha `1e-6`, mirror substitute) and
`roughness = 0.5` (alpha `0.25`, generic kind with alpha attribute). -/
theorem glossy_threshold_substitution_witness :
    ((1/1000 : ℚ) ^ 2 < 1/100000 ∧
      handle_special_cases (glossyNode (1/1000)) xmlNil "" esNoTex =
        .ok (some (XML.mk (some "bsdf") [("type", some "mirror")] [])))
    ∧ (¬ (1/2 : ℚ) ^ 2 < 1/100000 ∧
      handle_special_cases (glossyNode (1/2)) xmlNil "" esNoTex =
        .ok (some (addChild xmlNil (XML.mk (some "float")
          [("name", some "alpha"), ("value", some (str_round4 ((1/2 : ℚ) ^ 2)))] [])))) := by
  have h1 : (1/1000 : ℚ) ^ 2 < 1/100000 := by norm_num
  have h2 : ¬ (1/2 : ℚ) ^ 2 < 1/100000 := by norm_num
  exact ⟨⟨h1, (glossy_threshold_substitution (1/1000) xmlNil "" esNoTex).1 h1⟩,
         ⟨h2, (glossy_threshold_substitution (1/2) xmlNil "" esNoTex).2.1 h2⟩⟩

/-- The per-channel tint remap of the source agrees with the claim's
formula (the source writes the threshold as `0.9999`, the claim as
`1 - 1e-4`). -/
lemma tint_channel_eq_claim (b t : ℚ) : tint_channel b t = claim_tint_channel b t := by
  unfold tint_channel claim_tint_channel clamp01
  have h : (1 : ℚ) - 1/10000 = 9999/10000 := by norm_num
  rw [h]

/-- C2: for a principled node with unconnected Base Color `(b1, b2, b3)`
and unconnected Specular Tint `(t1, t2, t3)`, the emitted `specularTint`
scalar is exactly the claim's formula — the unweighted channel average of
`clamp01((T_i - 1)/(B_i - 1))` when `|B_i - 1| > 1e-4`, else `0` if
`T_i ≥ 1 - 1e-4` else `1` — and at base `(0.5, 0.5, 0.5)`, tint
`(0.5, 0.5, 0.5)` the value is `1.0`. -/
theorem principled_tint_inversion (b1 b2 b3 t1 t2 t3 : ℚ) (nt : XML) (td : String)
    (es : ExportSettings) :
    handle_special_cases (principledNode b1 b2 b3 t1 t2 t3) nt td es =
      .ok (some (addChild (addChild nt (XML.mk (some "color")
        [("name", some "baseColor"),
         ("value", some (String.intercalate ","
           [str_round4 b1, str_round4 b2, str_round4 b3]))] []))
        (XML.mk (some "float")
          [("name", some "specularTint"),
           ("value", some (str_round4 (claim_tint_strength (b1, b2, b3) (t1, t2, t3))))] [])))
    ∧ str_round4 (claim_tint_strength (1/2, 1/2, 1/2) (1/2, 1/2, 1/2)) = "1.0" := by
  constructor
  · have key : claim_tint_strength (b1, b2, b3) (t1, t2, t3)
        = (tint_channel b1 t1 + tint_channel b2 t2 + tint_channel b3 t3) / 3 := by
      simp [claim_tint_strength, tint_channel_eq_claim]
    rw [key]
    rfl
  · with_unfolding_all decide

/-- A node kind outside the special-cased vocabulary gets no kind-specific
rewrite: `handle_special_cases` signals "no special handling". -/
lemma handle_special_cases_nonspecial (node : NodeData) (nt : XML) (td : String)
    (es : ExportSettings) (h : node.type ∉ specialTypes) :
    handle_special_cases node nt td es = .ok none := by
  simp only [specialTypes, List.mem_cons, List.not_mem_nil, or_false, not_or] at h
  obtain ⟨h1, h2, h3, h4, h5⟩ := h
  unfold handle_special_cases
  rw [if_neg h1, if_neg h2, if_neg h3, if_neg h4, if_neg h5]

/-- A socket that the generic loop skips (connected, or without a truthy
registered parameter name) contributes nothing. -/
lemma genericParams_cons_skip (pm : List (String × List (String × String)))
    (tm : List (String × String)) (nt : String) (s : Socket) (rest : List Socket)
    (acc : XML) (h : emitsParam pm nt s = false) :
    genericParams pm tm nt (s :: rest) acc = genericParams pm tm nt rest acc := by
  unfold emitsParam at h
  by_cases hl : s.links.length > 0
  · simp only [genericParams, if_pos hl]
  · have hl0 : s.links.length = 0 := Nat.eq_zero_of_not_pos hl
    simp only [hl0, beq_self_eq_true, Bool.true_and] at h
    simp only [genericParams, if_neg hl]
    cases hreg : dictGet2 pm nt s.name with
    | none => simp [hreg]
    | some p =>
      rw [hreg] at h
      simp only [Bool.not_eq_false'] at h
      simp [hreg, h]

/-- Filtering away exactly the sockets the generic loop skips does not
change its result. -/
lemma genericParams_filter (pm : List (String × List (String × String)))
    (tm : List (String × String)) (nt : String) :
    ∀ (ss : List Socket) (acc : XML),
      genericParams pm tm nt (ss.filter (fun s => emitsParam pm nt s)) acc
        = genericParams pm tm nt ss acc := by
  intro ss
  induction ss with
  | nil => intro acc; rfl
  | cons s rest ih =>
    intro acc
    cases he : emitsParam pm nt s with
    | false =>
      rw [List.filter_cons_of_neg (by simp [he])]
      rw [ih, genericParams_cons_skip pm tm nt s rest acc he]
    | true =>
      rw [List.filter_cons_of_pos (by simp [he])]
      unfold emitsParam at he
      rw [Bool.and_eq_true] at he
      obtain ⟨hl0, hreg⟩ := he
      have hl : ¬ s.links.length > 0 := by
        simp only [beq_iff_eq] at hl0
        omega
      simp only [genericParams, if_neg hl]
      cases hreg2 : dictGet2 pm nt s.name with
      | none => rw [hreg2] at hreg; exact absurd hreg (by simp)
      | some p =>
        rw [hreg2] at hreg
        simp only [Bool.not_eq_true'] at hreg
        simp only [hreg2, hreg, Bool.false_eq_true, if_false]
        cases hcv : convert_values s.default_value (dictGet tm s.type) with
        | error e => simp [hcv]
        | ok v => simp [hcv, ih]

/-- C8: in the generic conversion path, a socket with an incoming link
never produces a default-value attribute (second conjunct: the loop skips
any connected socket outright, before looking at registration), and the
conversion result is unchanged when the inputs are restricted to exactly
the unconnected sockets with a truthy registered parameter name — only
those contribute attributes. -/
theorem generic_unconnected_only :
    (∀ (node : NodeData) (cfg : Config) (td : String) (es : ExportSettings),
      node.type ∉ specialTypes →
      node_to_xml node cfg td es =
        node_to_xml { node with
          inputs := (node.inputs.filter (fun s => emitsParam cfg.parameter_map node.type s)) }
          cfg td es)
    ∧ (∀ (pm : List (String × List (String × String))) (tm : List (String × String))
        (ntype : String) (s : Socket) (rest : List Socket) (acc : XML),
        s.links ≠ [] →
        genericParams pm tm ntype (s :: rest) acc = genericParams pm tm ntype rest acc) := by
  constructor
  · intro node cfg td es h
    rcases node with ⟨nty, nins, nimg⟩
    simp only [node_to_xml]
    cases hC : (!truthyOpt (dictGet cfg.node_map nty) &&
        !(nty == "TEX_IMAGE" && es.export_textures)) with
    | true => simp [hC]
    | false =>
      simp only [hC, Bool.false_eq_true, if_false]
      rw [handle_special_cases_nonspecial ⟨nty, nins, nimg⟩ _ _ _ h,
          handle_special_cases_nonspecial ⟨nty, nins.filter _, nimg⟩ _ _ _ h]
      rw [genericParams_filter]
  · intro pm tm ntype s rest acc h
    have hl : s.links.length > 0 := List.length_pos.mpr h
    simp only [genericParams, if_pos hl]

/-- C8 witness: a concrete non-special `MIX` node with one connected
registered socket, one unconnected registered socket and one unconnected
unregistered socket, and a concrete connected-socket skip. -/
theorem generic_unconnected_only_witness :
    ("MIX" ∉ specialTypes ∧
      node_to_xml mixNode cfg8 "" esNoTex =
        node_to_xml { mixNode with
          inputs := (mixNode.inputs.filter (fun s => emitsParam cfg8.parameter_map mixNode.type s)) }
          cfg8 "" esNoTex)
    ∧ (([7] : List ℕ) ≠ [] ∧
      genericParams [] [] "T" [⟨"S", "VALUE", .f 1, [7]⟩] xmlNil
        = genericParams [] [] "T" [] xmlNil) := by
  refine ⟨⟨by decide, generic_unconnected_only.1 mixNode cfg8 "" esNoTex (by decide)⟩,
          ⟨by decide, generic_unconnected_only.2 [] [] "T" ⟨"S", "VALUE", .f 1, [7]⟩ [] xmlNil (by decide)⟩⟩

/-- Skipping in `node_to_xml` is keyed on the type-label table
(`node_map`): a falsy entry and no texture side effect yield no element. -/
lemma node_to_xml_unmapped (node : NodeData) (cfg : Config) (td : String)
    (es : ExportSettings)
    (h1 : truthyOpt (dictGet cfg.node_map node.type) = false)
    (h2 : (node.type == "TEX_IMAGE" && es.export_textures) = false) :
    node_to_xml node cfg td es = .ok none := by
  unfold node_to_xml
  simp [h1, h2]

/-- C4 counterexample: the claim keys the skip on the `tag_of`
(`node_tag_map`) table, but the code keys it on the type-label
(`node_map`) table.  Under `cfgNoTag` the kind `FOO` has no `tag_of`
entry and no texture side effect, yet `convert` returns a non-empty
element (with a `None` tag). -/
theorem tag_absent_still_converts :
    dictGet cfgNoTag.node_tag_map "FOO" = none
    ∧ (fooNode.type == "TEX_IMAGE" && esNoTex.export_textures) = false
    ∧ node_to_xml fooNode cfgNoTag "" esNoTex = .ok (some (XML.mk none [("type", some "foo")] []))
    ∧ node_to_xml fooNode cfgNoTag "" esNoTex ≠ .ok none := by
  refine ⟨rfl, rfl, by decide, by decide⟩

/-- C4 amended: for every node whose kind has no truthy type-label
(`node_map`) entry and no mandatory side effect (not a texture node with
texture export enabled), `convert` returns empty; the Graph Compiler then
drops the whole subtree for that node — its already-computed children are
discarded and the traversal yields no element — and a consumer receiving
an empty child result proceeds without that branch. -/
theorem unmapped_type_label_drops_branch :
    (∀ (node : NodeData) (cfg : Config) (td : String) (es : ExportSettings),
      truthyOpt (dictGet cfg.node_map node.type) = false →
      (node.type == "TEX_IMAGE" && es.export_textures) = false →
      node_to_xml node cfg td es = .ok none)
    ∧ (∀ (g : Graph) (cfg : Config) (td : String) (es : ExportSettings)
        (fuel : ℕ) (v : List ℕ) (i : ℕ) (node : NodeData) (cs : List XML) (v2 : List ℕ),
      i ∉ v → getNode g i = some node →
      truthyOpt (dictGet cfg.node_map node.type) = false →
      (node.type == "TEX_IMAGE" && es.export_textures) = false →
      traverseList (fun v' j => traverseF g cfg td es fuel v' j)
          cfg.parameter_map node.type (inputSpecs node) (i :: v) = .ok (cs, v2) →
      traverseF g cfg td es (fuel + 1) v i = .ok (none, v2))
    ∧ (∀ (rec : List ℕ → ℕ → Except TraceErr (Option XML × List ℕ))
        (pm : List (String × List (String × String))) (nt sn : String) (j : ℕ)
        (rest : List (String × ℕ)) (v v1 : List ℕ),
      rec v j = .ok (none, v1) →
      traverseList rec pm nt ((sn, j) :: rest) v = traverseList rec pm nt rest v1) := by
  refine ⟨fun node cfg td es h1 h2 => node_to_xml_unmapped node cfg td es h1 h2,
          fun g cfg td es fuel v i node cs v2 hi hget h1 h2 htl => ?_,
          fun rec pm nt sn j rest v v1 h => ?_⟩
  · simp only [traverseF, if_neg hi, hget, htl,
      node_to_xml_unmapped node cfg td es h1 h2]
  · simp only [traverseList, h]

/-- C4 witness: concrete instantiations of the three conjuncts — the
unmapped kind `BAR` converts to nothing, its one-node graph traversal
yields no element, and a consumer's loop continues past an empty child. -/
theorem unmapped_type_label_drops_branch_witness :
    (node_to_xml barNode cfgNoTag "" esNoTex = .ok none)
    ∧ (traverseF gBar cfgNoTag "" esNoTex 2 [] 0 = .ok (none, [0]))
    ∧ (traverseList (fun v _ => .ok (none, v)) [] "T" [("s", 7)] []
        = traverseList (fun v _ => .ok (none, v)) [] "T" [] []) := by
  refine ⟨unmapped_type_label_drops_branch.1 barNode cfgNoTag "" esNoTex (by decide) (by decide),
          unmapped_type_label_drops_branch.2.1 gBar cfgNoTag "" esNoTex 1 [] 0 barNode [] [0]
            (by decide) (by decide) (by decide) (by decide) (by decide),
          unmapped_type_label_drops_branch.2.2 (fun v _ => .ok (none, v)) [] "T" "s" 7 [] [] []
            rfl⟩

/-- The visited set only grows across the child-collection loop, given
that the recursive call only grows it. -/
lemma traverseList_mono
    (rec : List ℕ → ℕ → Except TraceErr (Option XML × List ℕ))
    (pm : List (String × List (String × String))) (nt : String)
    (hrec : ∀ v j x v', rec v j = .ok (x, v') → v ⊆ v') :
    ∀ (specs : List (String × ℕ)) (v : List ℕ) (cs : List XML) (v' : List ℕ),
      traverseList rec pm nt specs v = .ok (cs, v') → v ⊆ v' := by
  intro specs
  induction specs with
  | nil =>
    intro v cs v' h
    simp only [traverseList, Except.ok.injEq, Prod.mk.injEq] at h
    exact h.2 ▸ List.Subset.refl v
  | cons p rest ih =>
    obtain ⟨sn, j⟩ := p
    intro v cs v' h
    simp only [traverseList] at h
    cases hr : rec v j with
    | error e => rw [hr] at h; exact absurd h (by simp)
    | ok q =>
      obtain ⟨o, v1⟩ := q
      rw [hr] at h
      have hv1 : v ⊆ v1 := hrec v j o v1 hr
      cases o with
      | none => exact hv1.trans (ih v1 cs v' h)
      | some ct =>
        simp only [] at h
        cases htl : traverseList rec pm nt rest v1 with
        | error e => rw [htl] at h; exact absurd h (by simp)
        | ok q2 =>
          obtain ⟨cs2, v2⟩ := q2
          rw [htl] at h
          simp only [Except.ok.injEq, Prod.mk.injEq] at h
          exact h.2 ▸ hv1.trans (ih v1 cs2 v2 htl)

/-- The visited set only grows across one traversal call. -/
lemma traverseF_mono (g : Graph) (cfg : Config) (td : String) (es : ExportSettings) :
    ∀ (fuel : ℕ) (v : List ℕ) (i : ℕ) (x : Option XML) (v' : List ℕ),
      traverseF g cfg td es fuel v i = .ok (x, v') → v ⊆ v' := by
  intro fuel
  induction fuel with
  | zero => intro v i x v' h; exact absurd h (by simp [traverseF])
  | succ fuel ih =>
    intro v i x v' h
    simp only [traverseF] at h
    by_cases hv : i ∈ v
    · rw [if_pos hv] at h
      simp only [Except.ok.injEq, Prod.mk.injEq] at h
      exact h.2 ▸ List.Subset.refl v
    · rw [if_neg hv] at h
      cases hg : getNode g i with
      | none => rw [hg] at h; exact absurd h (by simp)
      | some node =>
        rw [hg] at h
        simp only [] at h
        cases htl : traverseList (fun v' j => traverseF g cfg td es fuel v' j)
            cfg.parameter_map node.type (inputSpecs node) (i :: v) with
        | error e => rw [htl] at h; exact absurd h (by simp)
        | ok q =>
          obtain ⟨cts, v2⟩ := q
          rw [htl] at h
          have hsub : (i :: v) ⊆ v2 :=
            traverseList_mono _ _ _ (fun a b c d hh => ih a b c d hh) _ _ _ _ htl
          have hv2 : v ⊆ v2 :=
            List.Subset.trans (fun a ha => List.mem_cons_of_mem i ha) hsub
          cases hx : node_to_xml node cfg td es with
          | error e => rw [hx] at h; exact absurd h (by simp)
          | ok o =>
            rw [hx] at h
            cases o with
            | none =>
              simp only [Except.ok.injEq, Prod.mk.injEq] at h
              exact h.2 ▸ hv2
            | some ntag =>
              simp only [Except.ok.injEq, Prod.mk.injEq] at h
              exact h.2 ▸ hv2

/-- A resolvable node id is one of the graph's ids. -/
lemma getNode_mem_ids (g : Graph) (i : ℕ) (node : NodeData)
    (h : getNode g i = some node) : i ∈ idsOf g := by
  unfold getNode at h
  cases hf : g.nodes.find? (fun p => p.1 == i) with
  | none => rw [hf] at h; exact absurd h (by simp)
  | some p =>
    have hmem := List.mem_of_find?_eq_some hf
    have heq : p.1 = i := by simpa using List.find?_some hf
    unfold idsOf
    rw [List.mem_toFinset]
    exact heq ▸ List.mem_map_of_mem Prod.fst hmem

/-- Visiting a fresh node of the graph strictly shrinks the unvisited
count. -/
lemma unvisited_lt (g : Graph) (i : ℕ) (v : List ℕ) (hid : i ∈ idsOf g) (hv : i ∉ v) :
    unvisitedCount g (i :: v) < unvisitedCount g v := by
  unfold unvisitedCount
  rw [List.toFinset_cons]
  apply Finset.card_lt_card
  rw [Finset.ssubset_iff_of_subset
    (Finset.sdiff_subset_sdiff (Finset.Subset.refl _) (Finset.subset_insert _ _))]
  refine ⟨i, Finset.mem_sdiff.mpr ⟨hid, by simpa using hv⟩, ?_⟩
  simp

/-- The unvisited count is antitone in the visited set. -/
lemma unvisited_le (g : Graph) {v v' : List ℕ} (h : v ⊆ v') :
    unvisitedCount g v' ≤ unvisitedCount g v := by
  apply Finset.card_le_card
  apply Finset.sdiff_subset_sdiff (Finset.Subset.refl _)
  intro a ha
  rw [List.mem_toFinset] at *
  exact h ha

/-- With enough fuel for every visited set it threads, the
child-collection loop never exhausts fuel. -/
lemma traverseList_no_fuelOut (g : Graph) (cfg : Config) (td : String)
    (es : ExportSettings) (fuel : ℕ)
    (pm : List (String × List (String × String))) (nt : String)
    (hrec : ∀ v j, unvisitedCount g v < fuel →
      traverseF g cfg td es fuel v j ≠ .error .fuelOut) :
    ∀ (specs : List (String × ℕ)) (v : List ℕ), unvisitedCount g v < fuel →
      traverseList (fun v' j => traverseF g cfg td es fuel v' j) pm nt specs v
        ≠ .error .fuelOut := by
  intro specs
  induction specs with
  | nil => intro v hv; simp [traverseList]
  | cons p rest ih =>
    obtain ⟨sn, j⟩ := p
    intro v hv
    simp only [traverseList]
    cases hr : traverseF g cfg td es fuel v j with
    | error e =>
      intro hc
      injection hc with hc'
      exact hrec v j hv (by rw [hr, hc'])
    | ok q =>
      obtain ⟨o, v1⟩ := q
      have hsub : v ⊆ v1 := traverseF_mono g cfg td es fuel v j o v1 hr
      have hv1 : unvisitedCount g v1 < fuel := lt_of_le_of_lt (unvisited_le g hsub) hv
      cases o with
      | none => exact ih v1 hv1
      | some ct =>
        simp only []
        cases htl : traverseList (fun v' j => traverseF g cfg td es fuel v' j)
            pm nt rest v1 with
        | error e =>
          intro hc
          injection hc with hc'
          exact ih v1 hv1 (by rw [htl, hc'])
        | ok q2 =>
          obtain ⟨cs2, v2⟩ := q2
          simp

/-- With fuel exceeding the number of unvisited graph nodes, the
traversal never exhausts fuel: the Visited-Set check bounds the recursion
even on malformed cyclic input. -/
lemma traverseF_no_fuelOut (g : Graph) (cfg : Config) (td : String) (es : ExportSettings) :
    ∀ (fuel : ℕ) (v : List ℕ) (i : ℕ), unvisitedCount g v < fuel →
      traverseF g cfg td es fuel v i ≠ .error .fuelOut := by
  intro fuel
  induction fuel with
  | zero => intro v i h; exact absurd h (Nat.not_lt_zero _)
  | succ fuel ih =>
    intro v i h
    simp only [traverseF]
    by_cases hv : i ∈ v
    · simp [hv]
    · rw [if_neg hv]
      cases hg : getNode g i with
      | none => simp
      | some node =>
        simp only []
        have hid := getNode_mem_ids g i node hg
        have hlt : unvisitedCount g (i :: v) < fuel :=
          lt_of_lt_of_le (unvisited_lt g i v hid hv) (Nat.lt_succ_iff.mp h)
        have htlne := traverseList_no_fuelOut g cfg td es fuel cfg.parameter_map node.type
          (fun v' j hv' => ih v' j hv') (inputSpecs node) (i :: v) hlt
        cases htl : traverseList (fun v' j => traverseF g cfg td es fuel v' j)
            cfg.parameter_map node.type (inputSpecs node) (i :: v) with
        | error e =>
          intro hc
          injection hc with hc'
          exact htlne (by rw [htl, hc'])
        | ok q =>
          obtain ⟨cts, v2⟩ := q
          cases hx : node_to_xml node cfg td es with
          | error e => simp [hx]
          | ok o => cases o <;> simp [hx]

/-- C6: for every input graph — including malformed cyclic ones — the
depth-first compilation terminates: any fuel exceeding the number of
unvisited nodes is never exhausted (first conjunct), so the recursion
depth is bounded by the Visited-Set check rather than by the input; and a
node already in the Visited Set is not converted again — a second or
later encounter returns immediately with no subtree and an unchanged
visited set (second conjunct). -/
theorem traversal_terminates_and_visits_once (g : Graph) (cfg : Config) (td : String)
    (es : ExportSettings) :
    (∀ (fuel : ℕ) (v : List ℕ) (i : ℕ), unvisitedCount g v < fuel →
      traverseF g cfg td es fuel v i ≠ .error .fuelOut)
    ∧ (∀ (fuel : ℕ) (v : List ℕ) (i : ℕ), i ∈ v →
      traverseF g cfg td es (fuel + 1) v i = .ok (none, v)) :=
  ⟨traverseF_no_fuelOut g cfg td es,
   fun fuel v i h => by simp [traverseF, h]⟩

/-- C6 witness: on the concrete two-node cyclic graph `gCyc`, fuel 3
exceeds the 2 unvisited nodes and the traversal from node 0 does not
exhaust fuel; and a node already in the visited set returns no subtree. -/
theorem traversal_terminates_and_visits_once_witness :
    (unvisitedCount gCyc [] < 3 ∧
      traverseF gCyc cfgD "" esNoTex 3 [] 0 ≠ .error .fuelOut)
    ∧ ((5 : ℕ) ∈ [5] ∧
      traverseF gCyc cfgD "" esNoTex (0 + 1) [5] 5 = .ok (none, [5])) := by
  refine ⟨⟨by decide, (traversal_terminates_and_visits_once gCyc cfgD "" esNoTex).1 3 [] 0
      (by decide)⟩,
    ⟨by decide, (traversal_terminates_and_visits_once gCyc cfgD "" esNoTex).2 0 [5] 5
      (by decide)⟩⟩

end Bento
